import Mathlib

/-!
Shallow embedding of the vue-flow core graph utilities
(`packages/core/src/utils/graph.ts`, staged as `src/unnamed/part_001`).

Conventions of the embedding:
* JavaScript `string | number` identifier values are `Value`
  (`Value.str` / `Value.num`); `toString()` is `Value.toStr`; strict
  equality `===` is decidable equality on `Value` (a string never equals
  a number, as in JS).
* Optional object fields are `Option`: `none` stands for an absent (or
  `undefined`) property, `some v` for a present one.  `a ?? b` on such a
  field is `presentOr a b`, and an `Object.assign` / object-spread source
  contributes a field exactly when it is `some`.
* Numbers that carry geometry are `ℚ` (the claims under test are about
  order and arithmetic structure, not float rounding); `Math.ceil` is
  `Int.ceil`.
* Functions that report through the `warn` channel return the pair
  (result, emitted warning); the plain name is the first projection.
-/

namespace VueFlow

/-- JavaScript primitive identifier values, `string | number`. -/
inductive Value where
  | str : String → Value
  | num : Int → Value
deriving DecidableEq, Repr

/-- JavaScript `toString()` on an identifier value. -/
def Value.toStr : Value → String
  | .str s => s
  | .num n => toString n

/-- JavaScript falsiness of an identifier value: `""` and `0` are falsy. -/
def Value.falsy : Value → Bool
  | .str s => s = ""
  | .num n => n = 0

/-- Raw `?? `-style merge for presence-tracked fields: the left operand when
present, else the right. -/
def presentOr {α : Type} (a b : Option α) : Option α :=
  match a with
  | some x => some x
  | none => b

/-- An `XYPosition` from the source types: a point in logical coordinates. -/
structure XYPosition where
  x : ℚ
  y : ℚ
deriving DecidableEq, Repr

/-- An `XYZPosition`: a point together with its stacking depth `z`. -/
structure XYZPosition where
  x : ℚ
  y : ℚ
  z : ℚ
deriving DecidableEq, Repr

/-- A `Rect` of the source types. -/
structure Rect where
  x : ℚ
  y : ℚ
  width : ℚ
  height : ℚ
deriving DecidableEq, Repr

/-- The viewport transform `(x, y, zoom)`. -/
structure ViewportTransform where
  x : ℚ
  y : ℚ
  zoom : ℚ
deriving DecidableEq, Repr

/-- Measured node dimensions.  The runtime value of `width`/`height` can be
`undefined` before measurement (the source defends with `typeof ... ===
'undefined'` checks), hence `Option`. -/
structure Dimensions where
  width : Option ℚ
  height : Option ℚ
deriving DecidableEq, Repr

/-- Handle bounds per direction.  Their elements are opaque to every claim
under test, so a handle is represented by its id only. -/
structure HandleBounds where
  source : List String
  target : List String
deriving DecidableEq, Repr

/-- A raw `Node` description as supplied by a caller.  Required fields
(`id`, `position`) are plain; every optional field is presence-tracked. -/
structure Node where
  id : Value
  position : XYPosition
  type : Option String := none
  data : Option Value := none
  draggable : Option Bool := none
  selectable : Option Bool := none
  connectable : Option Bool := none
  focusable : Option Bool := none
  label : Option String := none
deriving DecidableEq, Repr

/-- A canonical `GraphNode` as produced by `parseNode`.  `data = none`
stands for the default empty payload. -/
structure GraphNode where
  id : String
  type : String
  dimensions : Dimensions
  handleBounds : HandleBounds
  computedPosition : XYZPosition
  draggable : Option Bool
  selectable : Option Bool
  connectable : Option Bool
  focusable : Option Bool
  selected : Bool
  dragging : Bool
  resizing : Bool
  initialized : Bool
  isParent : Bool
  position : XYPosition
  data : Option Value
  label : Option String
  parentNode : Option String
deriving DecidableEq, Repr

/-- A raw `Edge` description.  `id`, `source` and `target` are required
properties (they may carry non-string primitives); the rest are
presence-tracked. -/
structure Edge where
  id : Value
  source : Value
  target : Value
  sourceHandle : Option String := none
  targetHandle : Option String := none
  type : Option String := none
  label : Option String := none
  updatable : Option Bool := none
  selectable : Option Bool := none
  focusable : Option Bool := none
  interactionWidth : Option Int := none
  data : Option Value := none
deriving DecidableEq, Repr

/-- A canonical `GraphEdge` as produced by `parseEdge`.  Note that `source`
and `target` stay `Value`: the final merge in `parseEdge` writes the raw
values over the stringified initial state (see `parseEdge`). -/
structure GraphEdge where
  id : String
  type : String
  source : Value
  target : Value
  sourceHandle : Option String
  targetHandle : Option String
  updatable : Option Bool
  selectable : Option Bool
  focusable : Option Bool
  label : String
  interactionWidth : Option Int
  data : Option Value
deriving DecidableEq, Repr

/-- The `DefaultEdgeOptions` configuration record (the recognized options
per the configuration surface: updatable, selectable, focusable,
interaction width). -/
structure DefaultEdgeOptions where
  updatable : Option Bool := none
  selectable : Option Bool := none
  focusable : Option Bool := none
  interactionWidth : Option Int := none
deriving DecidableEq, Repr

/-- A `Connection`: the (source, target, sourceHandle, targetHandle) tuple. -/
structure Connection where
  source : String
  target : String
  sourceHandle : Option String := none
  targetHandle : Option String := none
deriving DecidableEq, Repr

/-- An element of a mixed `Elements` collection, holding canonical
entities. -/
inductive Element where
  | node : GraphNode → Element
  | edge : GraphEdge → Element
deriving DecidableEq, Repr

/-- The structural `isEdge` test of the source (an element with `id`,
`source` and `target`). -/
def Element.isEdge : Element → Bool
  | .node _ => false
  | .edge _ => true

/-- Property access `el.id` on an element (canonical entities carry string
ids). -/
def Element.id : Element → String
  | .node n => n.id
  | .edge e => e.id

/-- Source `getEdgeId`: the template literal
`vueflow__edge-${source}${sourceHandle ?? ''}-${target}${targetHandle ?? ''}`. -/
def getEdgeId (c : Connection) : String :=
  "vueflow__edge-" ++ c.source ++ (c.sourceHandle.getD "") ++ "-" ++
    c.target ++ (c.targetHandle.getD "")

/-- Merge step `Object.assign(base, node, { id, parentNode })` of
`parseNode`: every field present on the raw `node` overrides `base`
(`position` is a required property, hence always present); `id` and
`parentNode` are written last.  Fields a raw `Node` cannot carry
(dimensions, handle bounds, computed position, the runtime flags) stay
those of `base`. -/
def assignNode (base : GraphNode) (node : Node) (id : String)
    (parentNode : Option String) : GraphNode :=
  { base with
    id := id
    type := node.type.getD base.type
    position := node.position
    data := presentOr node.data base.data
    draggable := presentOr node.draggable base.draggable
    selectable := presentOr node.selectable base.selectable
    connectable := presentOr node.connectable base.connectable
    focusable := presentOr node.focusable base.focusable
    label := presentOr node.label base.label
    parentNode := parentNode }

/-- Source `parseNode(node, existingNode?, parentNode?)`: builds the
default-valued initial state, then
`Object.assign(existingNode ?? initialState, node, { id, parentNode })`. -/
def parseNode (node : Node) (existingNode : Option GraphNode)
    (parentNode : Option String) : GraphNode :=
  let initialState : GraphNode :=
    { id := node.id.toStr
      type := node.type.getD "default"
      dimensions := { width := some 0, height := some 0 }
      handleBounds := { source := [], target := [] }
      computedPosition := { x := node.position.x, y := node.position.y, z := 0 }
      draggable := none
      selectable := none
      connectable := none
      focusable := none
      selected := false
      dragging := false
      resizing := false
      initialized := false
      isParent := false
      position := { x := 0, y := 0 }
      data := node.data
      label := none
      parentNode := none }
  assignNode (existingNode.getD initialState) node node.id.toStr parentNode

/-- Merge step `Object.assign(base, edge, { id })` of `parseEdge`:
every field present on the raw `edge` overrides `base` (`source` and
`target` are required properties, hence always present, and carry the raw
`Value`); the stringified `id` is written last. -/
def assignEdge (base : GraphEdge) (edge : Edge) (id : String) : GraphEdge :=
  { base with
    id := id
    type := edge.type.getD base.type
    source := edge.source
    target := edge.target
    sourceHandle := presentOr edge.sourceHandle base.sourceHandle
    targetHandle := presentOr edge.targetHandle base.targetHandle
    updatable := presentOr edge.updatable base.updatable
    selectable := presentOr edge.selectable base.selectable
    focusable := presentOr edge.focusable base.focusable
    label := edge.label.getD base.label
    interactionWidth := presentOr edge.interactionWidth base.interactionWidth
    data := presentOr edge.data base.data }

/-- The trailing `...(defaultEdgeOptions ?? \x7b\x7d)` spread at the end of
the `parseEdge` initial-state literal: each option present on the defaults
record overrides the field computed so far. -/
def spreadDefaultEdgeOptions (g : GraphEdge) (d : DefaultEdgeOptions) : GraphEdge :=
  { g with
    updatable := presentOr d.updatable g.updatable
    selectable := presentOr d.selectable g.selectable
    focusable := presentOr d.focusable g.focusable
    interactionWidth := presentOr d.interactionWidth g.interactionWidth }

/-- Source `parseEdge(edge, existingEdge?, defaultEdgeOptions?)`: builds the
initial state (fields from the raw edge with `??` fallbacks, the defaults
record spread over it last), then
`Object.assign(existingEdge ?? initialState, edge, { id })`. -/
def parseEdge (edge : Edge) (existingEdge : Option GraphEdge)
    (defaultEdgeOptions : Option DefaultEdgeOptions) : GraphEdge :=
  let dfl := defaultEdgeOptions.getD {}
  let initialState : GraphEdge :=
    spreadDefaultEdgeOptions
      { id := edge.id.toStr
        type := edge.type.getD
          (match existingEdge with
            | some e => e.type
            | none => "default")
        source := .str edge.source.toStr
        target := .str edge.target.toStr
        sourceHandle := edge.sourceHandle
        targetHandle := edge.targetHandle
        updatable := presentOr edge.updatable dfl.updatable
        selectable := presentOr edge.selectable dfl.selectable
        focusable := presentOr edge.focusable dfl.focusable
        label := edge.label.getD ""
        interactionWidth := presentOr edge.interactionWidth dfl.interactionWidth
        data := edge.data }
      dfl
  assignEdge (existingEdge.getD initialState) edge edge.id.toStr

/-- JavaScript falsiness of an optional handle id (`undefined`, `null` and
`""` are falsy). -/
def handleFalsy : Option String → Bool
  | none => true
  | some s => s = ""

/-- One element's clause of the `connectionExists` scan: an existing edge
sharing source and target, each handle matching exactly or falsy on both
sides. -/
def edgeMatches (edge : GraphEdge) (el : Element) : Bool :=
  match el with
  | .node _ => false
  | .edge e =>
      e.source == edge.source && e.target == edge.target &&
      (e.sourceHandle == edge.sourceHandle ||
        (handleFalsy e.sourceHandle && handleFalsy edge.sourceHandle)) &&
      (e.targetHandle == edge.targetHandle ||
        (handleFalsy e.targetHandle && handleFalsy edge.targetHandle))

/-- Source `connectionExists(edge, elements)`. -/
def connectionExists (edge : GraphEdge) (elements : List Element) : Bool :=
  elements.any (edgeMatches edge)

/-- The `Edge | Connection` union taken by `addEdge`; the source dispatches
with `isEdge(edgeParams)`, i.e. on the presence of an `id`. -/
inductive EdgeParams where
  | edge : Edge → EdgeParams
  | conn : Connection → EdgeParams
deriving DecidableEq, Repr

/-- Truthiness test `!edgeParams.source` of `addEdge`. -/
def EdgeParams.sourceFalsy : EdgeParams → Bool
  | .edge e => e.source.falsy
  | .conn c => c.source = ""

/-- Truthiness test `!edgeParams.target` of `addEdge`. -/
def EdgeParams.targetFalsy : EdgeParams → Bool
  | .edge e => e.target.falsy
  | .conn c => c.target = ""

/-- The edge `addEdge` builds and normalizes before the dedup check: a copy
of the raw edge, or the connection extended with `id: getEdgeId(edgeParams)`,
passed through `parseEdge(edge, undefined, defaults)`. -/
def addedEdge (edgeParams : EdgeParams) (defaults : Option DefaultEdgeOptions) :
    GraphEdge :=
  let edge : Edge :=
    match edgeParams with
    | .edge e => e
    | .conn c =>
        { id := .str (getEdgeId c)
          source := .str c.source
          target := .str c.target
          sourceHandle := c.sourceHandle
          targetHandle := c.targetHandle }
  parseEdge edge none defaults

/-- Source `addEdge(edgeParams, elements, defaults?)`, paired with the
warning it emits (the `warn` channel). -/
def addEdgeW (edgeParams : EdgeParams) (elements : List Element)
    (defaults : Option DefaultEdgeOptions) : List Element × Option String :=
  if edgeParams.sourceFalsy || edgeParams.targetFalsy then
    (elements, some "Can\x27t create edge. An edge needs a source and a target.")
  else
    let edge := addedEdge edgeParams defaults
    if connectionExists edge elements then
      (elements, none)
    else
      (elements ++ [.edge edge], none)

/-- The collection `addEdge` returns. -/
def addEdge (edgeParams : EdgeParams) (elements : List Element)
    (defaults : Option DefaultEdgeOptions) : List Element :=
  (addEdgeW edgeParams elements defaults).1

/-- The replacement edge `updateEdge` synthesizes: the old edge's fields
with the new connection's id, endpoints and handles written over them. -/
def replacementEdge (oldEdge : GraphEdge) (newConnection : Connection) :
    GraphEdge :=
  { oldEdge with
    id := getEdgeId newConnection
    source := .str newConnection.source
    target := .str newConnection.target
    sourceHandle := newConnection.sourceHandle
    targetHandle := newConnection.targetHandle }

/-- The splice `elements.splice(elements.indexOf(foundEdge), 1, edge)`:
replaces the first element satisfying `p` (the found edge) by `rep`.
`indexOf(foundEdge)` is the index `find` stopped at, since any earlier
element equal to the found one would itself have matched first. -/
def spliceReplace (p : Element → Bool) (rep : Element) :
    List Element → List Element
  | [] => []
  | el :: rest => if p el then rep :: rest else el :: spliceReplace p rep rest

/-- The predicate of `elements.find((e) => isEdge(e) && e.id === oldEdge.id)`. -/
def isOldEdge (oldId : String) (el : Element) : Bool :=
  el.isEdge && el.id == oldId

/-- Source `updateEdge(oldEdge, newConnection, elements)`, paired with the
warning it emits. -/
def updateEdgeW (oldEdge : GraphEdge) (newConnection : Connection)
    (elements : List Element) : List Element × Option String :=
  if newConnection.source = "" || newConnection.target = "" then
    (elements, some "Can\x27t create new edge. An edge needs a source and a target.")
  else if (elements.find? (isOldEdge oldEdge.id)).isSome then
    let edge := replacementEdge oldEdge newConnection
    ((spliceReplace (isOldEdge oldEdge.id) (.edge edge) elements).filter
      (fun e => e.id != oldEdge.id), none)
  else
    (elements, some ("The old edge with id=" ++ oldEdge.id ++ " does not exist."))

/-- The collection `updateEdge` returns. -/
def updateEdge (oldEdge : GraphEdge) (newConnection : Connection)
    (elements : List Element) : List Element :=
  (updateEdgeW oldEdge newConnection elements).1

/-- Source `getOverlappingArea(rectA, rectB)`: the `Math.ceil`-rounded
intersection area of two axis-aligned rectangles. -/
def getOverlappingArea (rectA rectB : Rect) : ℚ :=
  let xOverlap := max 0
    (min (rectA.x + rectA.width) (rectB.x + rectB.width) - max rectA.x rectB.x)
  let yOverlap := max 0
    (min (rectA.y + rectA.height) (rectB.y + rectB.height) - max rectA.y rectB.y)
  ((Int.ceil (xOverlap * yOverlap) : ℤ) : ℚ)

/-- The pane rectangle of `getNodesInside`: the query rectangle carried into
logical space through the viewport transform. -/
def paneRect (rect : Rect) (t : ViewportTransform) : Rect :=
  { x := (rect.x - t.x) / t.zoom
    y := (rect.y - t.y) / t.zoom
    width := rect.width / t.zoom
    height := rect.height / t.zoom }

/-- The node rectangle of `getNodesInside`: computed position with
`dimensions.width || 0` and `dimensions.height || 0`. -/
def nodeRect (node : GraphNode) : Rect :=
  { x := node.computedPosition.x
    y := node.computedPosition.y
    width := node.dimensions.width.getD 0
    height := node.dimensions.height.getD 0 }

/-- The per-node predicate of the `getNodesInside` filter.  `area` is
`dimensions.width * dimensions.height`; an `undefined` factor makes the JS
comparison `overlappingArea >= area` false, a case `notInitialized`
subsumes, so the total embedding reads the factors through `getD 0`. -/
def nodeInside (pane : Rect) (partially : Bool)
    (excludeNonSelectableNodes : Bool) (node : GraphNode) : Bool :=
  if excludeNonSelectableNodes && !(node.selectable.getD false) then
    false
  else
    let overlappingArea := getOverlappingArea pane (nodeRect node)
    let notInitialized :=
      node.dimensions.width.isNone || node.dimensions.height.isNone ||
      node.dimensions.width == some 0 || node.dimensions.height == some 0
    let partiallyVisible := partially && decide (0 < overlappingArea)
    let area := node.dimensions.width.getD 0 * node.dimensions.height.getD 0
    notInitialized || partiallyVisible || decide (area ≤ overlappingArea)

/-- Source `getNodesInside(nodes, rect, transform, partially,
excludeNonSelectableNodes)` (the source defaults are transform
`(0, 0, 1)`, `partially = false`, `excludeNonSelectableNodes = false`). -/
def getNodesInside (nodes : List GraphNode) (rect : Rect)
    (t : ViewportTransform) (partially : Bool)
    (excludeNonSelectableNodes : Bool) : List GraphNode :=
  nodes.filter (nodeInside (paneRect rect t) partially excludeNonSelectableNodes)

/-- Source `isParentSelected(node, findNode)`, with an explicit bound on the
recursion depth standing for the JS call stack: `none` means the bound was
exhausted without the call returning (the source itself has no cycle guard
and recurses unconditionally through `findNode(parentId)`). -/
def isParentSelected (fuel : Nat) (node : GraphNode)
    (findNode : String → Option GraphNode) : Option Bool :=
  match fuel with
  | 0 => none
  | fuel + 1 =>
      match node.parentNode with
      | none => some false
      | some parentId =>
          match findNode parentId with
          | none => some false
          | some parent =>
              if parent.selected then some true
              else isParentSelected fuel parent findNode

/-- The direction argument of `getConnectedElements`. -/
inductive Dir where
  | source : Dir
  | target : Dir
deriving DecidableEq, Repr

/-- Field access `edge[dir]`. -/
def edgeField (e : GraphEdge) : Dir → Value
  | .source => e.source
  | .target => e.target

/-- Source `getConnectedElements(nodeOrId, nodes, edges, dir)`: one pass
collecting `edge[dir]` for every edge whose opposite endpoint matches the
subject, then a filter of the node collection by membership. -/
def getConnectedElements (id : String) (nodes : List GraphNode)
    (edges : List GraphEdge) (dir : Dir) : List GraphNode :=
  let origin : Dir := match dir with | .source => .target | .target => .source
  let connectedIds := edges.foldl
    (fun acc edge =>
      if edgeField edge origin == Value.str id then edgeField edge dir :: acc
      else acc)
    ([] : List Value)
  nodes.filter (fun n => connectedIds.contains (Value.str n.id))

/-- Three-argument `getOutgoers(nodeOrId, nodes, edges)`. -/
def getOutgoers (id : String) (nodes : List GraphNode)
    (edges : List GraphEdge) : List GraphNode :=
  getConnectedElements id nodes edges .target

/-- Three-argument `getIncomers(nodeOrId, nodes, edges)`. -/
def getIncomers (id : String) (nodes : List GraphNode)
    (edges : List GraphEdge) : List GraphNode :=
  getConnectedElements id nodes edges .source

/-- The scan `elements.filter((el) => isEdge(el) && el.source === nodeId)`
of two-argument `getOutgoers`. -/
def outgoerEdges (id : String) (elements : List Element) : List GraphEdge :=
  elements.filterMap (fun el =>
    match el with
    | .edge e => if e.source == Value.str id then some e else none
    | .node _ => none)

/-- The scan `elements.filter((el) => isEdge(el) && el.target === nodeId)`
of two-argument `getIncomers`. -/
def incomerEdges (id : String) (elements : List Element) : List GraphEdge :=
  elements.filterMap (fun el =>
    match el with
    | .edge e => if e.target == Value.str id then some e else none
    | .node _ => none)

/-- The lookup `elements.find((el) => isNode(el) && el.id === target)`:
`none` is the `undefined` the JS `find` yields when no node resolves. -/
def findNodeEl (elements : List Element) (target : Value) : Option GraphNode :=
  (elements.find? (fun el =>
    match el with
    | .node n => Value.str n.id == target
    | .edge _ => false)).bind (fun el =>
      match el with
      | .node n => some n
      | .edge _ => none)

/-- Two-argument `getOutgoers(nodeOrId, elements)`: each matching edge is
resolved to its target node by linear lookup, `undefined` when missing. -/
def getOutgoersMixed (id : String) (elements : List Element) :
    List (Option GraphNode) :=
  (outgoerEdges id elements).map (fun edge => findNodeEl elements edge.target)

/-- Two-argument `getIncomers(nodeOrId, elements)`. -/
def getIncomersMixed (id : String) (elements : List Element) :
    List (Option GraphNode) :=
  (incomerEdges id elements).map (fun edge => findNodeEl elements edge.source)

/-- C1 counterexample: two connections whose 4-tuples differ (the sources
differ) yet `getEdgeId` gives them the same identifier: the source string
and the source handle are concatenated with no separator, so the split is
ambiguous. -/
theorem getEdgeId_collision_counterexample :
    getEdgeId { source := "AB", target := "T" } =
      getEdgeId { source := "A", target := "T", sourceHandle := some "B" } ∧
    ({ source := "AB", target := "T" } : Connection) ≠
      { source := "A", target := "T", sourceHandle := some "B" } := by
  decide

/-- C1 (amended): `getEdgeId` is deterministic — connections agreeing in
all four components get equal identifiers — but it is not injective: two
connections differing in a component can share an identifier. -/
theorem getEdgeId_deterministic_not_injective :
    (∀ c1 c2 : Connection, c1.source = c2.source → c1.target = c2.target →
      c1.sourceHandle = c2.sourceHandle → c1.targetHandle = c2.targetHandle →
      getEdgeId c1 = getEdgeId c2) ∧
    (∃ c1 c2 : Connection,
      (c1.source ≠ c2.source ∨ c1.target ≠ c2.target ∨
        c1.sourceHandle ≠ c2.sourceHandle ∨ c1.targetHandle ≠ c2.targetHandle) ∧
      getEdgeId c1 = getEdgeId c2) := by
  constructor
  · intro c1 c2 hs ht hsh hth
    simp [getEdgeId, hs, ht, hsh, hth]
  · exact ⟨{ source := "AB", target := "T" },
      { source := "A", target := "T", sourceHandle := some "B" },
      Or.inl (by decide), by decide⟩

/-- C2 counterexample: the identifier prefix is `vueflow__edge-`, not
`edge-`: `addEdge(\x7bsource: "A", target: "B"\x7d, [])` yields the id
`vueflow__edge-A-B`. -/
theorem getEdgeId_prefix_counterexample :
    getEdgeId { source := "A", target := "B" } ≠ "edge-A-B" ∧
    (addEdge (.conn { source := "A", target := "B" }) [] none).map Element.id ≠
      ["edge-A-B"] := by
  decide

/-- C2 (amended): `getEdgeId` returns exactly
`"vueflow__edge-" ++ source ++ (sourceHandle ?? "") ++ "-" ++ target ++
(targetHandle ?? "")`, and `addEdge(\x7bsource: "A", target: "B"\x7d, [])`
yields a one-edge collection whose single edge has id
`"vueflow__edge-A-B"`. -/
theorem getEdgeId_format_and_addEdge_example :
    (∀ c : Connection, getEdgeId c =
      "vueflow__edge-" ++ c.source ++ (c.sourceHandle.getD "") ++ "-" ++
        c.target ++ (c.targetHandle.getD "")) ∧
    (addEdge (.conn { source := "A", target := "B" }) [] none).map Element.id =
      ["vueflow__edge-A-B"] := by
  exact ⟨fun c => rfl, by decide⟩

/-- C9 counterexample: `parseEdge` does not normalize `source`/`target` to
strings: the raw values are written over the stringified initial state by
the final merge, so a numeric source survives as a number (while the id
itself is normalized). -/
theorem parseEdge_numeric_endpoint_counterexample :
    (parseEdge { id := .num 1, source := .num 2, target := .str "b" }
        none none).source = Value.num 2 ∧
    Value.num 2 ≠ Value.str "2" ∧
    (parseEdge { id := .num 1, source := .num 2, target := .str "b" }
        none none).id = "1" := by
  refine ⟨rfl, by decide, by decide⟩

/-- C9 (amended): `parseNode` and `parseEdge` force-normalize the node id
and the edge id to string form, but an edge's `source` and `target` are
passed through as supplied (the stringified copies in the initial state are
overwritten by the raw values), so non-string endpoint identifiers are not
normalized. -/
theorem parse_identifier_normalization :
    (∀ (node : Node) (existing : Option GraphNode) (pid : Option String),
      (parseNode node existing pid).id = node.id.toStr) ∧
    (∀ (edge : Edge) (existing : Option GraphEdge)
        (d : Option DefaultEdgeOptions),
      (parseEdge edge existing d).id = edge.id.toStr ∧
      (parseEdge edge existing d).source = edge.source ∧
      (parseEdge edge existing d).target = edge.target) := by
  exact ⟨fun node existing pid => rfl,
    fun edge existing d => ⟨rfl, rfl, rfl⟩⟩

/-- C5 (confirmed): `addEdge` with a falsy source or target, `updateEdge`
with a falsy new source or target, and `updateEdge` whose old edge id is
not found in the collection, all return the input collection unchanged and
report through the warning channel; being total functions into a plain
pair they never abort the caller. -/
theorem invalid_mutation_noop :
    (∀ (p : EdgeParams) (els : List Element) (d : Option DefaultEdgeOptions),
      (p.sourceFalsy || p.targetFalsy) = true →
      addEdgeW p els d =
        (els, some "Can\x27t create edge. An edge needs a source and a target.")) ∧
    (∀ (o : GraphEdge) (c : Connection) (els : List Element),
      c.source = "" ∨ c.target = "" →
      updateEdgeW o c els =
        (els, some "Can\x27t create new edge. An edge needs a source and a target.")) ∧
    (∀ (o : GraphEdge) (c : Connection) (els : List Element),
      c.source ≠ "" → c.target ≠ "" →
      els.find? (isOldEdge o.id) = none →
      updateEdgeW o c els =
        (els, some ("The old edge with id=" ++ o.id ++ " does not exist."))) := by
  refine ⟨?_, ?_, ?_⟩
  · intro p els d h
    simp [addEdgeW, h]
  · intro o c els h
    rcases h with h | h <;> simp [updateEdgeW, h]
  · intro o c els hs ht hfind
    simp [updateEdgeW, hs, ht, hfind]

/-- C8 (confirmed): the normalizer merge is raw input over previous state
over defaults, and additive.  For an update of an existing entity: every
field present on the raw description ends up with the raw value (shown for
node type/draggable/position and edge updatable/label), while fields absent
from the raw description keep the previously stored value — in particular
the derived dimensions, handle bounds and computed position are preserved
verbatim.  For a fresh edge with instance defaults, a field present on the
raw edge also overrides the defaults record. -/
theorem parse_merge_precedence :
    (∀ (node : Node) (e : GraphNode) (pid : Option String),
      ((parseNode node (some e) pid).dimensions = e.dimensions ∧
        (parseNode node (some e) pid).handleBounds = e.handleBounds ∧
        (parseNode node (some e) pid).computedPosition = e.computedPosition) ∧
      (parseNode node (some e) pid).position = node.position ∧
      (∀ t, node.type = some t → (parseNode node (some e) pid).type = t) ∧
      (∀ b, node.draggable = some b →
        (parseNode node (some e) pid).draggable = some b) ∧
      (node.type = none → (parseNode node (some e) pid).type = e.type) ∧
      (node.draggable = none →
        (parseNode node (some e) pid).draggable = e.draggable)) ∧
    (∀ (edge : Edge) (g : GraphEdge) (d : Option DefaultEdgeOptions),
      (∀ u, edge.updatable = some u →
        (parseEdge edge (some g) d).updatable = some u) ∧
      (∀ l, edge.label = some l → (parseEdge edge (some g) d).label = l) ∧
      (edge.updatable = none → (parseEdge edge (some g) d).updatable = g.updatable) ∧
      (edge.label = none → (parseEdge edge (some g) d).label = g.label) ∧
      (edge.sourceHandle = none →
        (parseEdge edge (some g) d).sourceHandle = g.sourceHandle)) ∧
    (∀ (edge : Edge) (d : DefaultEdgeOptions) (u : Bool),
      edge.updatable = some u →
      (parseEdge edge none (some d)).updatable = some u) := by
  refine ⟨?_, ?_, ?_⟩
  · intro node e pid
    refine ⟨⟨rfl, rfl, rfl⟩, rfl, ?_, ?_, ?_, ?_⟩
    · intro t h
      simp [parseNode, assignNode, h]
    · intro b h
      simp [parseNode, assignNode, presentOr, h]
    · intro h
      simp [parseNode, assignNode, h]
    · intro h
      simp [parseNode, assignNode, presentOr, h]
  · intro edge g d
    refine ⟨?_, ?_, ?_, ?_, ?_⟩
    · intro u h
      simp [parseEdge, assignEdge, presentOr, h]
    · intro l h
      simp [parseEdge, assignEdge, h]
    · intro h
      simp [parseEdge, assignEdge, presentOr, h]
    · intro h
      simp [parseEdge, assignEdge, h]
    · intro h
      simp [parseEdge, assignEdge, presentOr, h]
  · intro edge d u h
    simp [parseEdge, assignEdge, presentOr, h]

/-- An edge matches itself under the dedup predicate (each handle equals
itself, so the exact-match disjunct fires). -/
theorem edgeMatches_self (e : GraphEdge) : edgeMatches e (.edge e) = true := by
  simp [edgeMatches]

/-- C3 counterexample: on a collection that already holds two duplicate
matching edges, both `addEdge` calls refuse (the connection exists), so the
result holds two matching edges, not exactly one. -/
theorem addEdge_duplicate_input_counterexample :
    (addEdge (.conn { source := "A", target := "B" })
        (addEdge (.conn { source := "A", target := "B" })
          [.edge (addedEdge (.conn { source := "A", target := "B" }) none),
            .edge (addedEdge (.conn { source := "A", target := "B" }) none)]
          none)
        none).countP
      (edgeMatches (addedEdge (.conn { source := "A", target := "B" }) none)) =
      2 := by
  decide

/-- C3 (amended): `addEdge` with non-falsy source and target is idempotent —
the second identical call returns the first call result unchanged, with no
error — and the matching-edge count of the result is one when the input
collection contained no matching edge, and the input count unchanged
otherwise (pre-existing duplicates are kept, never collapsed to one). -/
theorem addEdge_idempotent (p : EdgeParams) (els : List Element)
    (d : Option DefaultEdgeOptions)
    (hs : p.sourceFalsy = false) (ht : p.targetFalsy = false) :
    addEdge p (addEdge p els d) d = addEdge p els d ∧
    (addEdge p els d).countP (edgeMatches (addedEdge p d)) =
      (if els.countP (edgeMatches (addedEdge p d)) = 0 then 1
        else els.countP (edgeMatches (addedEdge p d))) := by
  have hfalsy : (p.sourceFalsy || p.targetFalsy) = false := by
    simp [hs, ht]
  cases hex : connectionExists (addedEdge p d) els with
  | true =>
      have h1 : addEdge p els d = els := by
        simp [addEdge, addEdgeW, hfalsy, hex]
      have hne : els.countP (edgeMatches (addedEdge p d)) ≠ 0 := by
        rw [Ne, List.countP_eq_zero]
        intro hall
        rcases List.any_eq_true.mp (by simpa [connectionExists] using hex) with
          ⟨el, hmem, hmatch⟩
        exact absurd hmatch (by simpa using hall el hmem)
      refine ⟨by rw [h1]; exact h1, ?_⟩
      rw [h1, if_neg hne]
  | false =>
      have h1 : addEdge p els d = els ++ [.edge (addedEdge p d)] := by
        simp [addEdge, addEdgeW, hfalsy, hex]
      have hex2 : connectionExists (addedEdge p d)
          (els ++ [.edge (addedEdge p d)]) = true := by
        simp [connectionExists, edgeMatches_self]
      have h0 : els.countP (edgeMatches (addedEdge p d)) = 0 := by
        rw [List.countP_eq_zero]
        intro a ha hmatch
        have : connectionExists (addedEdge p d) els = true := by
          simp only [connectionExists, List.any_eq_true]
          exact ⟨a, ha, hmatch⟩
        rw [hex] at this
        exact Bool.false_ne_true this
      refine ⟨?_, ?_⟩
      · rw [h1]
        simp [addEdge, addEdgeW, hfalsy, hex2]
      · rw [h1, List.countP_append, h0, if_pos rfl]
        simp [edgeMatches_self]

/-- C3 witness: the amended idempotence law at the concrete connection
`(A, B)` over the empty collection. -/
theorem addEdge_idempotent_witness :
    addEdge (.conn { source := "A", target := "B" })
        (addEdge (.conn { source := "A", target := "B" }) [] none) none =
      addEdge (.conn { source := "A", target := "B" }) [] none ∧
    (addEdge (.conn { source := "A", target := "B" }) [] none).countP
        (edgeMatches (addedEdge (.conn { source := "A", target := "B" }) none)) =
      (if ([] : List Element).countP
            (edgeMatches (addedEdge (.conn { source := "A", target := "B" }) none)) =
          0
        then 1
        else ([] : List Element).countP
          (edgeMatches (addedEdge (.conn { source := "A", target := "B" }) none))) :=
  addEdge_idempotent (.conn { source := "A", target := "B" }) [] none
    (by decide) (by decide)

/-- A concrete canonical node, for witnesses and counterexamples. -/
def mkNode (id : String) (parentNode : Option String) (selected : Bool)
    (selectable : Option Bool) (pos : XYZPosition) (dims : Dimensions) :
    GraphNode :=
  { id := id
    type := "default"
    dimensions := dims
    handleBounds := { source := [], target := [] }
    computedPosition := pos
    draggable := none
    selectable := selectable
    connectable := none
    focusable := none
    selected := selected
    dragging := false
    resizing := false
    initialized := false
    isParent := false
    position := { x := 0, y := 0 }
    data := none
    label := none
    parentNode := parentNode }

/-- A concrete canonical edge, for witnesses and counterexamples. -/
def mkEdge (id source target : String) : GraphEdge :=
  { id := id
    type := "default"
    source := .str source
    target := .str target
    sourceHandle := none
    targetHandle := none
    updatable := none
    selectable := none
    focusable := none
    label := ""
    interactionWidth := none
    data := none }

/-- Node `a`, unselected, whose parent chain points at `b`. -/
def cycleNodeA : GraphNode :=
  mkNode "a" (some "b") false none { x := 0, y := 0, z := 0 }
    { width := some 0, height := some 0 }

/-- Node `b`, unselected, whose parent chain points back at `a`. -/
def cycleNodeB : GraphNode :=
  mkNode "b" (some "a") false none { x := 0, y := 0, z := 0 }
    { width := some 0, height := some 0 }

/-- A `findNode` that resolves the two-node cyclic parent chain. -/
def cycleFind (id : String) : Option GraphNode :=
  if id = "a" then some cycleNodeA
  else if id = "b" then some cycleNodeB
  else none

/-- C6 (code bug): on a cyclic parent chain with no ancestor selected,
`isParentSelected` never returns, whatever recursion depth is granted —
the source recurses through `findNode(parentId)` with no cycle guard, so
the claimed defensive termination with `false` does not happen. -/
theorem isParentSelected_cycle_diverges :
    ∀ fuel : Nat,
      isParentSelected fuel cycleNodeA cycleFind = none ∧
      isParentSelected fuel cycleNodeB cycleFind = none := by
  intro fuel
  induction fuel with
  | zero => exact ⟨rfl, rfl⟩
  | succ n ih =>
      refine ⟨?_, ?_⟩
      · have step : isParentSelected (n + 1) cycleNodeA cycleFind =
            isParentSelected n cycleNodeB cycleFind := rfl
        rw [step]
        exact ih.2
      · have step : isParentSelected (n + 1) cycleNodeB cycleFind =
            isParentSelected n cycleNodeA cycleFind := rfl
        rw [step]
        exact ih.1

/-- Splicing over a decomposed list: elements before the first match are
kept, the match is replaced, the tail is untouched. -/
theorem spliceReplace_append (p : Element → Bool) (rep x : Element)
    (pre post : List Element) (hpre : ∀ el ∈ pre, p el = false)
    (hx : p x = true) :
    spliceReplace p rep (pre ++ x :: post) = pre ++ rep :: post := by
  induction pre with
  | nil => simp [spliceReplace, hx]
  | cons a l ih =>
      have ha : p a = false := hpre a (by simp)
      simp only [List.cons_append, spliceReplace, ha, Bool.false_eq_true,
        if_false, List.cons.injEq, true_and]
      exact ih (fun el hel => hpre el (by simp [hel]))

/-- C4 counterexample: when the identifier derived from the new connection
equals the old edge identifier, the trailing cleanup removes the
replacement itself, so no new edge is inserted — here the whole collection
empties although the claim hypotheses hold (non-empty endpoints, old edge
present). -/
theorem updateEdge_same_id_counterexample :
    updateEdge (mkEdge "vueflow__edge-A-B" "A" "B")
        { source := "A", target := "B" }
        [.edge (mkEdge "vueflow__edge-A-B" "A" "B")] = [] ∧
    ("A" : String) ≠ "" ∧
    (mkEdge "vueflow__edge-A-B" "A" "B").id = "vueflow__edge-A-B" := by
  decide

/-- C4 (amended): with non-empty new endpoints, the old edge present, and
the derived new identifier different from the old one, `updateEdge` leaves
no element carrying the old identifier; and when exactly one element — an
edge — carries the old identifier, the result is precisely the input with
that edge replaced in place by the synthesized replacement (old edge fields,
new identity/endpoints/handles), all other elements untouched — in
particular a third pre-existing edge whose identifier equals the derived
one survives alongside the replacement. -/
theorem updateEdge_replaces (oldEdge : GraphEdge) (c : Connection)
    (els : List Element)
    (hs : c.source ≠ "") (ht : c.target ≠ "")
    (hfound : (els.find? (isOldEdge oldEdge.id)).isSome = true) :
    (∀ el ∈ updateEdge oldEdge c els, Element.id el ≠ oldEdge.id) ∧
    (∀ (pre post : List Element) (oldEl : GraphEdge),
      els = pre ++ .edge oldEl :: post →
      oldEl.id = oldEdge.id →
      (∀ el ∈ pre, Element.id el ≠ oldEdge.id) →
      (∀ el ∈ post, Element.id el ≠ oldEdge.id) →
      getEdgeId c ≠ oldEdge.id →
      updateEdge oldEdge c els =
        pre ++ .edge (replacementEdge oldEdge c) :: post) := by
  have hform : updateEdge oldEdge c els =
      (spliceReplace (isOldEdge oldEdge.id)
        (.edge (replacementEdge oldEdge c)) els).filter
        (fun e => e.id != oldEdge.id) := by
    simp [updateEdge, updateEdgeW, hs, ht, hfound]
  constructor
  · intro el hel
    rw [hform] at hel
    simpa using (List.mem_filter.mp hel).2
  · intro pre post oldEl hels hid hpre hpost hne
    have hsplice : spliceReplace (isOldEdge oldEdge.id)
        (.edge (replacementEdge oldEdge c)) els =
        pre ++ .edge (replacementEdge oldEdge c) :: post := by
      rw [hels]
      apply spliceReplace_append
      · intro el hel
        have := hpre el hel
        simp [isOldEdge, this]
      · simp [isOldEdge, Element.isEdge, Element.id, hid]
    rw [hform, hsplice]
    rw [List.filter_eq_self]
    intro el hel
    rcases List.mem_append.mp hel with h | h
    · simpa using hpre el h
    · rcases List.mem_cons.mp h with h | h
      · subst h
        simpa [Element.id, replacementEdge] using hne
      · simpa using hpost el h

/-- C4 witness: a rename on a two-element collection whose second edge
already carries exactly the derived identifier `vueflow__edge-A-B`: the old
edge is replaced in place and the colliding third edge survives. -/
theorem updateEdge_replaces_witness :
    updateEdge (mkEdge "old" "X" "Y") { source := "A", target := "B" }
        [.edge (mkEdge "old" "X" "Y"),
          .edge (mkEdge "vueflow__edge-A-B" "A" "B")] =
      [.edge (replacementEdge (mkEdge "old" "X" "Y")
          { source := "A", target := "B" }),
        .edge (mkEdge "vueflow__edge-A-B" "A" "B")] :=
  (updateEdge_replaces (mkEdge "old" "X" "Y") { source := "A", target := "B" }
      [.edge (mkEdge "old" "X" "Y"),
        .edge (mkEdge "vueflow__edge-A-B" "A" "B")]
      (by decide) (by decide) (by decide)).2
    [] [.edge (mkEdge "vueflow__edge-A-B" "A" "B")] (mkEdge "old" "X" "Y")
    rfl rfl (by intro el hel; cases hel) (by decide) (by decide)

/-- An unmeasured node (zero dimensions) with no `selectable` override. -/
def unselectableNode : GraphNode :=
  mkNode "u" none false none { x := 0, y := 0, z := 0 }
    { width := some 0, height := some 0 }

/-- C7 counterexample: with `excludeNonSelectableNodes = true`, a node with
zero (unmeasured) dimensions and no truthy `selectable` flag is excluded —
the selectability gate runs before the not-initialized escape, so such a
node is not "always included". -/
theorem getNodesInside_selectable_counterexample :
    getNodesInside [unselectableNode] { x := 0, y := 0, width := 10, height := 10 }
        { x := 0, y := 0, zoom := 1 } false true = [] ∧
    unselectableNode.dimensions = { width := some 0, height := some 0 } := by
  decide

/-- C7 (amended): for a node that passes the selectability gate
(`excludeNonSelectableNodes` false or `selectable` truthy): a node with
zero or unmeasured dimensions is always included; a measured node (both
dimensions present and positive) is included, when `partially` is false,
iff its overlap with the logical-space rectangle is at least its own area,
and, when `partially` is true, iff the overlap is strictly positive. -/
theorem getNodesInside_spec (nodes : List GraphNode) (rect : Rect)
    (t : ViewportTransform) (exclude : Bool) (node : GraphNode)
    (hsel : (exclude && !(node.selectable.getD false)) = false) :
    (∀ partially : Bool,
      (node.dimensions.width = none ∨ node.dimensions.width = some 0 ∨
        node.dimensions.height = none ∨ node.dimensions.height = some 0) →
      node ∈ nodes → node ∈ getNodesInside nodes rect t partially exclude) ∧
    (∀ w h : ℚ, node.dimensions = { width := some w, height := some h } →
      0 < w → 0 < h →
      ((node ∈ getNodesInside nodes rect t false exclude ↔
        node ∈ nodes ∧
          w * h ≤ getOverlappingArea (paneRect rect t) (nodeRect node)) ∧
       (node ∈ getNodesInside nodes rect t true exclude ↔
        node ∈ nodes ∧
          0 < getOverlappingArea (paneRect rect t) (nodeRect node)))) := by
  constructor
  · intro partially hdim hmem
    rw [getNodesInside, List.mem_filter]
    refine ⟨hmem, ?_⟩
    rw [nodeInside, if_neg (by simp [hsel])]
    rcases hdim with h | h | h | h <;> simp [h]
  · intro w h hdim hw hh
    have hp : ∀ partially : Bool,
        nodeInside (paneRect rect t) partially exclude node =
          (partially && decide (0 < getOverlappingArea (paneRect rect t)
              (nodeRect node)) ||
            decide (w * h ≤ getOverlappingArea (paneRect rect t)
              (nodeRect node))) := by
      intro partially
      rw [nodeInside, if_neg (by simp [hsel])]
      have hfw : (w == 0) = false := by simpa using hw.ne'
      have hfh : (h == 0) = false := by simpa using hh.ne'
      simp [hdim, hfw, hfh]
    constructor
    · rw [getNodesInside, List.mem_filter, hp false]
      simp
    · rw [getNodesInside, List.mem_filter, hp true]
      simp only [Bool.true_and, Bool.or_eq_true, decide_eq_true_eq]
      constructor
      · rintro ⟨hmem, hov | hov⟩
        · exact ⟨hmem, hov⟩
        · exact ⟨hmem, lt_of_lt_of_le (mul_pos hw hh) hov⟩
      · rintro ⟨hmem, hov⟩
        exact ⟨hmem, Or.inl hov⟩

/-- A measured 1×1 node at the origin with no `selectable` override. -/
def measuredNode : GraphNode :=
  mkNode "m" none false none { x := 0, y := 0, z := 0 }
    { width := some 1, height := some 1 }

/-- C7 witness: the amended characterization at a concrete measured node
and rectangle, with the selectability gate passed. -/
theorem getNodesInside_spec_witness :
    (∀ partially : Bool,
      (measuredNode.dimensions.width = none ∨
        measuredNode.dimensions.width = some 0 ∨
        measuredNode.dimensions.height = none ∨
        measuredNode.dimensions.height = some 0) →
      measuredNode ∈ [measuredNode] →
      measuredNode ∈ getNodesInside [measuredNode]
        { x := 0, y := 0, width := 2, height := 2 }
        { x := 0, y := 0, zoom := 1 } partially false) ∧
    (∀ w h : ℚ,
      measuredNode.dimensions = { width := some w, height := some h } →
      0 < w → 0 < h →
      ((measuredNode ∈ getNodesInside [measuredNode]
          { x := 0, y := 0, width := 2, height := 2 }
          { x := 0, y := 0, zoom := 1 } false false ↔
        measuredNode ∈ [measuredNode] ∧
          w * h ≤ getOverlappingArea
            (paneRect { x := 0, y := 0, width := 2, height := 2 }
              { x := 0, y := 0, zoom := 1 })
            (nodeRect measuredNode)) ∧
       (measuredNode ∈ getNodesInside [measuredNode]
          { x := 0, y := 0, width := 2, height := 2 }
          { x := 0, y := 0, zoom := 1 } true false ↔
        measuredNode ∈ [measuredNode] ∧
          0 < getOverlappingArea
            (paneRect { x := 0, y := 0, width := 2, height := 2 }
              { x := 0, y := 0, zoom := 1 })
            (nodeRect measuredNode)))) :=
  getNodesInside_spec [measuredNode] { x := 0, y := 0, width := 2, height := 2 }
    { x := 0, y := 0, zoom := 1 } false measuredNode (by decide)

/-- C10 (confirmed): in the two-argument (mixed-list) shape, the result has
one entry per matching edge — its length is the matching-edge count, not
the resolved-node count — and the entry at the position of a matching edge
whose counterpart node is absent from the list is `none` (the JS
`undefined`); the three-argument shape only ever returns members of the
supplied node list. -/
theorem getOutgoers_getIncomers_shapes :
    (∀ (id : String) (elements : List Element),
      (getOutgoersMixed id elements).length = (outgoerEdges id elements).length ∧
      (getIncomersMixed id elements).length = (incomerEdges id elements).length ∧
      (∀ (i : Nat) (e : GraphEdge), (outgoerEdges id elements).get? i = some e →
        (∀ n : GraphNode, Element.node n ∈ elements → Value.str n.id ≠ e.target) →
        (getOutgoersMixed id elements).get? i = some none) ∧
      (∀ (i : Nat) (e : GraphEdge), (incomerEdges id elements).get? i = some e →
        (∀ n : GraphNode, Element.node n ∈ elements → Value.str n.id ≠ e.source) →
        (getIncomersMixed id elements).get? i = some none)) ∧
    (∀ (id : String) (nodes : List GraphNode) (edges : List GraphEdge),
      (∀ n ∈ getOutgoers id nodes edges, n ∈ nodes) ∧
      (∀ n ∈ getIncomers id nodes edges, n ∈ nodes)) := by
  have hfind : ∀ (elements : List Element) (v : Value),
      (∀ n : GraphNode, Element.node n ∈ elements → Value.str n.id ≠ v) →
      findNodeEl elements v = none := by
    intro elements v hmiss
    rw [findNodeEl]
    have hnone : elements.find? (fun el =>
        match el with
        | .node n => Value.str n.id == v
        | .edge _ => false) = none := by
      rw [List.find?_eq_none]
      intro el hel
      cases el with
      | node n => simpa using hmiss n hel
      | edge g => simp
    rw [hnone]
    rfl
  constructor
  · intro id elements
    refine ⟨List.length_map _ _, List.length_map _ _, ?_, ?_⟩
    · intro i e hget hmiss
      rw [getOutgoersMixed, List.get?_map, hget]
      simp only [Option.map_some']
      rw [hfind elements e.target hmiss]
    · intro i e hget hmiss
      rw [getIncomersMixed, List.get?_map, hget]
      simp only [Option.map_some']
      rw [hfind elements e.source hmiss]
  · intro id nodes edges
    constructor <;>
      · intro n hn
        simp only [getOutgoers, getIncomers, getConnectedElements] at hn
        exact (List.mem_filter.mp hn).1

end VueFlow
